import Mathlib

/-!
Verification of the Arcamage OpenAI-compatible chat relay
(`backend/app/api/proxy.py`, `backend/app/core/supplier_proxy.py`,
`backend/app/core/api_models.py`) against its specification.

The Python code is shallowly embedded: pure helpers become Lean functions,
the HTTP transport becomes an explicit upstream-behaviour oracle, Python
exceptions become `Except`, and async generators become the list of chunks
they yield paired with the exception (if any) escaping the generator body.
String-level modelling is for ASCII-scope inputs of `str.lower`/`str.strip`
(all inputs the relay's validation set contains are ASCII).
-/

namespace Arcamage

/-! ## Python JSON values -/

/-- Python `json` values as seen after `json.loads` / before `json.dumps`.
Numbers are modelled as integers; no claim in this development inspects the
value of a float (`temperature` is carried opaquely by the request model). -/
inductive Json where
  | null
  | bool (b : Bool)
  | num (n : Int)
  | str (s : String)
  | arr (elems : List Json)
  | obj (fields : List (String × Json))

/-- First binding of `key` in a Python dict (insertion-ordered, unique keys). -/
def Json.lookupField : List (String × Json) → String → Option Json
  | [], _ => none
  | (k, v) :: rest, key => if k == key then some v else Json.lookupField rest key

/-- Python `dict.get(key, default)`. -/
def Json.dictGet (fields : List (String × Json)) (key : String) (dflt : Json) : Json :=
  (Json.lookupField fields key).getD dflt

/-- Python truthiness `bool(x)` of a JSON-decoded value. -/
def Json.truthy : Json → Bool
  | .null => false
  | .bool b => b
  | .num n => n != 0
  | .str s => s != ""
  | .arr xs => !xs.isEmpty
  | .obj fs => !fs.isEmpty

/-! ## Python string primitives -/

/-- The characters `str.strip()` removes (ASCII scope). -/
def pyWhitespace (c : Char) : Bool :=
  c = ' ' || c = '\t' || c = '\n' || c = '\r' || c.toNat = 11 || c.toNat = 12

/-- Python `s.strip()` (ASCII scope). -/
def pyStrip (s : String) : String :=
  ⟨((s.data.dropWhile pyWhitespace).reverse.dropWhile pyWhitespace).reverse⟩

/-- Python `s.rstrip("/")`: remove every trailing `'/'`. -/
def rstripSlashes (s : String) : String :=
  ⟨(s.data.reverse.dropWhile (· = '/')).reverse⟩

/-- Python `s.lower()` (ASCII scope). -/
def pyLower (s : String) : String :=
  ⟨s.data.map Char.toLower⟩

/-! ## `json.dumps` (default separators, `ensure_ascii=False`) -/

/-- Escaping of one character inside a JSON string literal, as the Python
`json` module emits it with `ensure_ascii=False`: only `"`, `\` and control
characters below `0x20` are escaped. -/
def jsonEscapeChar (c : Char) : String :=
  if c = '"' then "\\\""
  else if c = '\\' then "\\\\"
  else if c = '\n' then "\\n"
  else if c = '\r' then "\\r"
  else if c = '\t' then "\\t"
  else if c.toNat = 8 then "\\b"
  else if c.toNat = 12 then "\\f"
  else if c.toNat < 32 then
    "\\u00" ++ String.mk [Nat.digitChar (c.toNat / 16), Nat.digitChar (c.toNat % 16)]
  else String.mk [c]

/-- Body of a JSON string literal for `s`. -/
def jsonEscape (s : String) : String :=
  String.join (s.data.map jsonEscapeChar)

/-- A JSON string literal: `"` + escaped body + `"`. -/
def jsonQuote (s : String) : String :=
  "\"" ++ jsonEscape s ++ "\""

mutual

/-- Python `json.dumps(v, ensure_ascii=False)` with the default separators
`", "` and `": "`. -/
def pyJsonDumps : Json → String
  | .null => "null"
  | .bool true => "true"
  | .bool false => "false"
  | .num n => toString n
  | .str s => jsonQuote s
  | .arr xs => "[" ++ dumpsElems xs ++ "]"
  | .obj fs => "\x7b" ++ dumpsFields fs ++ "\x7d"

/-- Comma-separated array elements. -/
def dumpsElems : List Json → String
  | [] => ""
  | [x] => pyJsonDumps x
  | x :: y :: rest => pyJsonDumps x ++ ", " ++ dumpsElems (y :: rest)

/-- Comma-separated `"key": value` pairs. -/
def dumpsFields : List (String × Json) → String
  | [] => ""
  | [(k, v)] => jsonQuote k ++ ": " ++ pyJsonDumps v
  | (k, v) :: kv :: rest => jsonQuote k ++ ": " ++ pyJsonDumps v ++ ", " ++ dumpsFields (kv :: rest)

end

/-! ## Bytes -/

/-- Byte strings (`bytes`), each byte a `Nat` below 256. -/
abbrev Bytes := List Nat

/-- Python `s.encode("utf-8")`. -/
def utf8 (s : String) : Bytes :=
  s.toUTF8.toList.map UInt8.toNat

/-! ## `proxy.py`: pure helpers -/

/-- `_format_error_event(code, message)` from `proxy.py`: one SSE `error`
event. The source passes `message` straight into `json.dumps`, so it is a
JSON value here (the error-extraction path can produce a non-string). -/
def format_error_event (code : String) (message : Json) : Bytes :=
  utf8 ("event: error\ndata: " ++
        pyJsonDumps (.obj [("code", .str code), ("message", message)]) ++ "\n\n")

/-- `_map_error_code(status_code)` from `proxy.py`. -/
def map_error_code (status_code : Nat) : String :=
  if status_code = 401 then "UNAUTHORIZED"
  else if status_code = 429 then "RATE_LIMITED"
  else if status_code = 400 then "VALIDATION_ERROR"
  else "UPSTREAM_ERROR"

/-! ## Exceptions -/

/-- The `ErrorCode` enum of `app/core/api_models.py` (note: it has no
`UPSTREAM_ERROR` member). -/
inductive ErrorCode where
  | VALIDATION_ERROR
  | PARSE_ERROR
  | FILE_TOO_LARGE
  | INVALID_FORMAT
  | NETWORK_ERROR
  | TIMEOUT
  | UNAUTHORIZED
  | RATE_LIMITED
  | INTERNAL_ERROR
deriving DecidableEq, Repr

/-- Modelled from the spec: `app/core/exceptions.py` is not in the source
tree; only the class names imported by `supplier_proxy.py` and the
`ErrorCode` enum of `api_models.py` are.  Each `ArcamageException` subclass
used by the relay is modelled as one constructor carrying the message (and,
where the source passes one, a structured detail), and is mapped below to
the `ErrorCode` matching its name, following the spec error taxonomy (§7):
ValidationError→VALIDATION_ERROR, UnauthorizedError→UNAUTHORIZED,
RateLimitedError→RATE_LIMITED, TimeoutError→TIMEOUT,
NetworkError→NETWORK_ERROR. -/
inductive ArcaError where
  | validationError (msg : String) (detail : Json)
  | unauthorizedError (msg : String)
  | rateLimitedError (msg : String)
  | timeoutError (msg : String)
  | networkError (msg : String) (detail : Json)

/-- Modelled from the spec: the `error_code` each exception class carries
(named after the class, as the spec taxonomy prescribes). -/
def ArcaError.errorCode : ArcaError → ErrorCode
  | .validationError _ _ => .VALIDATION_ERROR
  | .unauthorizedError _ => .UNAUTHORIZED
  | .rateLimitedError _ => .RATE_LIMITED
  | .timeoutError _ => .TIMEOUT
  | .networkError _ _ => .NETWORK_ERROR

/-- The error kind as the string the spec taxonomy names it. -/
def ArcaError.kindStr : ArcaError → String
  | .validationError _ _ => "VALIDATION_ERROR"
  | .unauthorizedError _ => "UNAUTHORIZED"
  | .rateLimitedError _ => "RATE_LIMITED"
  | .timeoutError _ => "TIMEOUT"
  | .networkError _ _ => "NETWORK_ERROR"

/-- Python exceptions that are not `ArcamageException` and so have no
registered handler in `main.py`: they escape the relay uncaught. -/
inductive PyExn where
  | attributeError
  | timeoutExc
  | requestError
  | valueErrorExn
deriving DecidableEq, Repr

/-- A failure raised by relay code: either an `ArcamageException` (handled
by `arcamage_exception_handler`) or a raw Python exception. -/
inductive Failure where
  | arca (e : ArcaError)
  | py (e : PyExn)

/-! ## `urllib.parse.urlparse` (scheme / netloc / hostname fragment)

The relay uses exactly three attributes of the parse result: `scheme`,
`netloc` and `hostname`.  The model below follows CPython `urlsplit`
(3.10-era behaviour, ASCII scope): left-strip of C0-control/space bytes,
removal of tab/newline/carriage-return everywhere, scheme split at the
first `:` when the prefix is a valid scheme name, authority up to the first
`/`, `?` or `#` after a leading `//`, and `ValueError` on a `[`/`]`
bracket mismatch in the authority.  (The NFKC netloc check only concerns
non-ASCII input and the post-3.11 bracketed-host validation is not
modelled.) -/

/-- Characters allowed in a scheme name after the first (letters, digits,
`+`, `-`, `.`). -/
def schemeChar (c : Char) : Bool :=
  c.isAlphanum || c = '+' || c = '-' || c = '.'

/-- `urlsplit` preprocessing: lstrip C0-control/space, drop `\t`, `\n`,
`\r` everywhere. -/
def urlPreprocess (s : String) : List Char :=
  (s.data.dropWhile (fun c => c.toNat ≤ 32)).filter
    (fun c => !(c = '\t' || c = '\n' || c = '\r'))

/-- Scheme split: at the first `:`, when the prefix starts with an ASCII
letter and consists of scheme characters; the scheme is lowercased. -/
def splitScheme (l : List Char) : String × List Char :=
  match l.findIdx? (· = ':') with
  | some i =>
      if 0 < i && (l.headD ' ').isAlpha && (l.take i).all schemeChar then
        (⟨(l.take i).map Char.toLower⟩, l.drop (i + 1))
      else ("", l)
  | none => ("", l)

/-- The scheme and netloc attributes of a parse, all the relay reads
(besides `hostname`, derived from `netloc`). -/
structure UrlParts where
  scheme : String
  netloc : String
deriving DecidableEq, Repr

/-- `urlparse(base_url)` restricted to the attributes the relay uses;
`Except.error ()` models the `ValueError` CPython raises on an authority
with mismatched square brackets. -/
def pyUrlparse (s : String) : Except Unit UrlParts :=
  let l := urlPreprocess s
  let (scheme, rest) := splitScheme l
  if rest.take 2 = ['/', '/'] then
    let netloc := (rest.drop 2).takeWhile (fun c => !(c = '/' || c = '?' || c = '#'))
    if (netloc.contains '[' && !netloc.contains ']') ||
       (netloc.contains ']' && !netloc.contains '[') then
      .error ()
    else
      .ok ⟨scheme, ⟨netloc⟩⟩
  else
    .ok ⟨scheme, ""⟩

/-- `parsed.hostname`: authority after the last `@`, then the part inside
`[` `]` if a bracket is present, else the part before the first `:`;
lowercased, `None` when empty. -/
def pyHostname (netloc : String) : Option String :=
  let hostinfo := (netloc.data.reverse.takeWhile (· ≠ '@')).reverse
  let host :=
    if hostinfo.contains '[' then
      ((hostinfo.dropWhile (· ≠ '[')).drop 1).takeWhile (· ≠ ']')
    else
      hostinfo.takeWhile (· ≠ ':')
  if host.isEmpty then none else some ⟨host.map Char.toLower⟩

/-! ## `supplier_proxy.py`: `_normalize_base_url` -/

/-- `_normalize_base_url(base_url)` from `supplier_proxy.py`.  Raises
`ValidationError` on blank input, missing scheme/netloc, or a loopback
hostname; an uncaught `ValueError` from `urlparse` propagates. -/
def normalize_base_url (base_url : String) : Except Failure String :=
  if base_url = "" ∨ pyStrip base_url = "" then
    .error (.arca (.validationError "API 地址不能为空" .null))
  else
    match pyUrlparse base_url with
    | .error _ => .error (.py .valueErrorExn)
    | .ok parsed =>
        if parsed.scheme = "" ∨ parsed.netloc = "" then
          .error (.arca (.validationError "API 地址无效" .null))
        else
          let host := (pyHostname parsed.netloc).getD ""
          if pyLower host = "localhost" ∨ pyLower host = "127.0.0.1" ∨
             pyLower host = "::1" then
            .error (.arca (.validationError "API 地址不能为 localhost" .null))
          else
            .ok (rstripSlashes base_url)

/-! ## Request model and upstream oracle -/

/-- `SupplierChatRequest` from `api_models.py`.  `messages`, `tools` and
`tool_choice` are opaque JSON passed through; `temperature` is an optional
float carried opaquely as JSON (its value is never inspected, only its
presence — `None` is the absence sentinel, so `Option` models it). -/
structure SupplierChatRequest where
  base_url : String
  api_key : String
  model : String
  messages : List Json
  stream : Bool := true
  temperature : Option Json := none
  tools : Option Json := none
  tool_choice : Option Json := none

/-- `SupplierModel` from `api_models.py`. -/
structure SupplierModel where
  id : String
deriving DecidableEq, Repr

/-- An upstream HTTP response body: the raw text together with the outcome
of `json.loads` on it (`Except.error` carries `str(exception)` for the
`ValueError` the parser raises on unparseable text). -/
structure UpstreamBody where
  raw : String
  parsed : Except String Json

/-- Behaviour of one buffered upstream HTTP exchange: the transport raises
`httpx.TimeoutException`, raises another `httpx.RequestError`, or delivers
a response with a status code and a body. -/
inductive BufferedUpstream where
  | connTimeout
  | connError (errText : String)
  | response (status : Nat) (body : UpstreamBody)

/-- How the upstream byte iteration of a streaming response ends: normal
end of stream, `httpx.TimeoutException`, or another `httpx.RequestError`. -/
inductive StreamTail where
  | eof
  | timeoutExc
  | requestError

/-- Reading the full error body (`response.aread()`) either yields the body
or raises a transport exception. -/
inductive ReadOutcome where
  | ok (body : UpstreamBody)
  | timeoutExc
  | requestError

/-- A streaming upstream response: status code, the error body would
`aread()` be called, the chunk deliveries of `aiter_bytes()`, and how the
iteration ends. -/
structure StreamResponse where
  status : Nat
  errorBodyRead : ReadOutcome
  chunks : List Bytes
  tail : StreamTail

/-- Behaviour of one streaming upstream exchange. -/
inductive StreamUpstream where
  | connTimeout
  | connError (errText : String)
  | response (r : StreamResponse)

/-! ## Error-message extraction (shared shape of both chat paths) -/

/-- `parsed.get("error", {}).get("message", parsed.get("message", dflt))`
on a dict `parsed`: raises `AttributeError` when the `"error"` value is
present but not a dict (`.get` on a non-dict). -/
def extract_err_message (parsed : List (String × Json)) (dflt : Json) :
    Except PyExn Json :=
  let inner := Json.dictGet parsed "message" dflt
  match Json.lookupField parsed "error" with
  | none => .ok inner
  | some (.obj e) => .ok (Json.dictGet e "message" inner)
  | some _ => .error .attributeError

/-- The default message `f"Upstream error ({status})"`. -/
def upstream_err_default (status : Nat) : String :=
  "Upstream error (" ++ toString status ++ ")"

/-- The `message` computed by both chat paths for a status ≥ 400 response:
default unless the body is non-empty; on parseable dict bodies the
extracted message (possibly `AttributeError`); on a non-dict parse the
default; on a `ValueError` from `json.loads` the stripped raw text when
non-blank.  (`_stream_chat` decodes with `errors="ignore"` and checks
`if text:`, `_request_chat` uses `raw.strip() or message` — the same
function on ASCII-scope bodies.) -/
def chat_error_message (status : Nat) (body : UpstreamBody) : Except PyExn Json :=
  let dflt : Json := .str (upstream_err_default status)
  if body.raw = "" then .ok dflt
  else
    match body.parsed with
    | .ok (.obj fields) => extract_err_message fields dflt
    | .ok _ => .ok dflt
    | .error _ =>
        let text := pyStrip body.raw
        .ok (if text = "" then dflt else .str text)

/-! ## `proxy.py`: the two chat paths -/

/-- The outgoing upstream body built by `_stream_chat` (lines 39–49):
`model`, `messages`, `stream=True`, then each optional field only when it
is not `None`. -/
def stream_chat_body (payload : SupplierChatRequest) : List (String × Json) :=
  [("model", .str payload.model), ("messages", .arr payload.messages),
   ("stream", .bool true)] ++
  (match payload.temperature with | some t => [("temperature", t)] | none => []) ++
  (match payload.tools with | some t => [("tools", t)] | none => []) ++
  (match payload.tool_choice with | some t => [("tool_choice", t)] | none => [])

/-- The outgoing upstream body built by `_request_chat` (lines 93–103):
identical except `stream=False`. -/
def request_chat_body (payload : SupplierChatRequest) : List (String × Json) :=
  [("model", .str payload.model), ("messages", .arr payload.messages),
   ("stream", .bool false)] ++
  (match payload.temperature with | some t => [("temperature", t)] | none => []) ++
  (match payload.tools with | some t => [("tools", t)] | none => []) ++
  (match payload.tool_choice with | some t => [("tool_choice", t)] | none => [])

/-- `_stream_chat(payload, base_url)` as the pair (chunks the async
generator yields, exception escaping the generator body, if any).
The whole body is wrapped in `try/except` for `httpx.TimeoutException` and
`httpx.RequestError` only; any other exception (`AttributeError` from the
message extraction) escapes with nothing further yielded. -/
def stream_chat (payload : SupplierChatRequest) (base_url : String)
    (upstream : StreamUpstream) : List Bytes × Option PyExn :=
  let _ := stream_chat_body payload
  let _ := base_url
  match upstream with
  | .connTimeout => ([format_error_event "TIMEOUT" (.str "Request timed out")], none)
  | .connError _ => ([format_error_event "NETWORK_ERROR" (.str "Network request failed")], none)
  | .response r =>
      if r.status ≥ 400 then
        let code := map_error_code r.status
        match r.errorBodyRead with
        | .timeoutExc => ([format_error_event "TIMEOUT" (.str "Request timed out")], none)
        | .requestError => ([format_error_event "NETWORK_ERROR" (.str "Network request failed")], none)
        | .ok body =>
            match chat_error_message r.status body with
            | .ok message => ([format_error_event code message], none)
            | .error e => ([], some e)
      else
        let relayed := r.chunks.filter (fun c => !c.isEmpty)
        match r.tail with
        | .eof => (relayed, none)
        | .timeoutExc =>
            (relayed ++ [format_error_event "TIMEOUT" (.str "Request timed out")], none)
        | .requestError =>
            (relayed ++ [format_error_event "NETWORK_ERROR" (.str "Network request failed")], none)

/-- An HTTP reply to the caller: status plus JSON content. -/
structure HttpReply where
  status : Nat
  content : Json

/-- `_request_chat(payload, base_url)`.  The `httpx` call is NOT wrapped in
any `try/except`: transport exceptions (`.timeoutExc`, `.requestError`)
escape raw, as does the `AttributeError` from the message extraction. -/
def request_chat (payload : SupplierChatRequest) (base_url : String)
    (upstream : BufferedUpstream) : Except PyExn HttpReply :=
  let _ := request_chat_body payload
  let _ := base_url
  match upstream with
  | .connTimeout => .error .timeoutExc
  | .connError _ => .error .requestError
  | .response status body =>
      if status ≥ 400 then
        match chat_error_message status body with
        | .error e => .error e
        | .ok message =>
            .ok ⟨status, .obj [("error", .obj
              [("message", message), ("code", .str (map_error_code status))])]⟩
      else
        match body.parsed with
        | .ok content => .ok ⟨status, content⟩
        | .error _ => .ok ⟨status, .obj [("message", .str body.raw)]⟩

/-- The caller-visible outcome of `proxy_chat`. -/
inductive ProxyOutcome where
  | localError (e : Failure)
  | buffered (r : Except PyExn HttpReply)
  | streamed (yields : List Bytes) (exn : Option PyExn)

/-- `proxy_chat(payload)` together with the number of upstream transport
exchanges it performs: the credential check and the base-URL normalization
run before any transport activity (count 0 on those failures). -/
def proxy_chat (payload : SupplierChatRequest)
    (streamUp : StreamUpstream) (bufUp : BufferedUpstream) : ProxyOutcome × Nat :=
  if payload.api_key = "" ∨ pyStrip payload.api_key = "" then
    (.localError (.arca (.validationError "API Key 不能为空" .null)), 0)
  else
    match normalize_base_url payload.base_url with
    | .error e => (.localError e, 0)
    | .ok normalized =>
        if payload.stream then
          let (ys, exn) := stream_chat payload normalized streamUp
          (.streamed ys exn, 1)
        else
          (.buffered (request_chat payload normalized bufUp), 1)

/-! ## Python `str()` of a JSON-decoded value -/

/-- One character of a Python string `repr` delimited by `q` (ASCII scope). -/
def pyReprCharEsc (q : Char) (c : Char) : String :=
  if c = '\\' then "\\\\"
  else if c = q then "\\" ++ String.mk [q]
  else if c = '\n' then "\\n"
  else if c = '\r' then "\\r"
  else if c = '\t' then "\\t"
  else if c.toNat < 32 || c.toNat = 127 then
    "\\x" ++ String.mk [Nat.digitChar (c.toNat / 16), Nat.digitChar (c.toNat % 16)]
  else String.mk [c]

/-- Python `repr` of a string: single-quoted, switching to double quotes
when the string contains `'` but no `"`. -/
def pyReprStr (s : String) : String :=
  if s.data.contains '\'' && !s.data.contains '"' then
    "\"" ++ String.join (s.data.map (pyReprCharEsc '"')) ++ "\""
  else
    "'" ++ String.join (s.data.map (pyReprCharEsc '\'')) ++ "'"

mutual

/-- Python `repr` of a JSON-decoded value. -/
def pyRepr : Json → String
  | .null => "None"
  | .bool true => "True"
  | .bool false => "False"
  | .num n => toString n
  | .str s => pyReprStr s
  | .arr xs => "[" ++ pyReprElems xs ++ "]"
  | .obj fs => "\x7b" ++ pyReprFields fs ++ "\x7d"

/-- Comma-separated list elements of a Python `repr`. -/
def pyReprElems : List Json → String
  | [] => ""
  | [x] => pyRepr x
  | x :: y :: rest => pyRepr x ++ ", " ++ pyReprElems (y :: rest)

/-- Comma-separated `key: value` pairs of a Python dict `repr`. -/
def pyReprFields : List (String × Json) → String
  | [] => ""
  | [(k, v)] => pyReprStr k ++ ": " ++ pyRepr v
  | (k, v) :: kv :: rest => pyReprStr k ++ ": " ++ pyRepr v ++ ", " ++ pyReprFields (kv :: rest)

end

/-- Python `str()` of a JSON-decoded value: strings unchanged, `repr`
for everything else (`True`, `None`, decimal integers, container reprs). -/
def pyStr : Json → String
  | .str s => s
  | v => pyRepr v

/-! ## `supplier_proxy.py`: `fetch_models` -/

/-- The model list built from a parsed 2xx body by `fetch_models` (lines
66–80): `payload.get("data")` when the payload is a dict; a non-list (or
missing) `data` yields `[]`; each `data` element that is a dict whose
`"id"` value is truthy contributes `SupplierModel(id=str(item["id"]))`. -/
def fetch_models_list (payload : Json) : List SupplierModel :=
  let data : Option Json :=
    match payload with
    | .obj fields => some (Json.dictGet fields "data" .null)
    | _ => none
  match data with
  | some (.arr items) =>
      items.filterMap (fun item =>
        match item with
        | .obj fields =>
            if (Json.dictGet fields "id" .null).truthy then
              some ⟨pyStr (Json.dictGet fields "id" .null)⟩
            else none
        | _ => none)
  | _ => []

/-- `fetch_models(base_url, api_key)` with an explicit transport-exchange
count (0 when the failure is decided before any network call). -/
def fetch_models (base_url api_key : String) (upstream : BufferedUpstream) :
    Except Failure (List SupplierModel) × Nat :=
  if api_key = "" ∨ pyStrip api_key = "" then
    (.error (.arca (.validationError "API Key 不能为空" .null)), 0)
  else
    match normalize_base_url base_url with
    | .error e => (.error e, 0)
    | .ok _ =>
        match upstream with
        | .connTimeout => (.error (.arca (.timeoutError "Request timed out")), 1)
        | .connError errText =>
            (.error (.arca (.networkError "Network request failed"
              (.obj [("error", .str errText)]))), 1)
        | .response status body =>
            if status = 401 then (.error (.arca (.unauthorizedError "Unauthorized")), 1)
            else if status = 429 then
              (.error (.arca (.rateLimitedError "Rate limit exceeded")), 1)
            else if status ≥ 400 then
              (.error (.arca (.networkError ("Upstream error: " ++ toString status)
                (.obj [("status_code", .num status)]))), 1)
            else
              match body.parsed with
              | .error errText =>
                  (.error (.arca (.validationError "响应解析失败"
                    (.obj [("error", .str errText)]))), 1)
              | .ok payload => (.ok (fetch_models_list payload), 1)

/-! ## Claim-side (specification) definitions

These render the claims' own words, to be compared with the definitions
embedded from the source above. -/

/-- Whether a JSON value is `null` or the empty string — the reading of an
"empty" field value in claim C7. -/
def Json.isNullOrEmptyStr : Json → Bool
  | .null => true
  | .str s => s = ""
  | _ => false

/-- The failure condition of claim C5, as the claim words it: the input is
empty or whitespace-only, or its parse lacks a scheme or host component, or
its hostname compared case-insensitively equals one of `localhost`,
`127.0.0.1`, `::1`. -/
def c5_validation_cond (s : String) : Prop :=
  pyStrip s = "" ∨
  (∃ parts, pyUrlparse s = .ok parts ∧
    (parts.scheme = "" ∨ parts.netloc = "" ∨
      (∃ h, pyHostname parts.netloc = some h ∧
        (pyLower h = "localhost" ∨ pyLower h = "127.0.0.1" ∨ pyLower h = "::1"))))

/-- The model list of claim C7, as the claim words it: exactly those
elements of `data` that are objects with a non-empty `id` field, in order,
each contributing one entry with that id.  (A field is non-empty when it is
present and neither `null` nor the empty string; the entry id of a
non-string value is its Python rendering.) -/
def c7_spec_list (payload : Json) : List SupplierModel :=
  match payload with
  | .obj fields =>
      match Json.lookupField fields "data" with
      | some (.arr items) =>
          items.filterMap (fun item =>
            match item with
            | .obj f =>
                match Json.lookupField f "id" with
                | some v => if v.isNullOrEmptyStr then none else some ⟨pyStr v⟩
                | none => none
            | _ => none)
      | _ => []
  | _ => []

/-- The model list of amended claim C7: exactly those elements of `data`
that are objects whose `id` value is Python-truthy, each contributing one
entry whose id is the Python `str()` of that value. -/
def c7_amended_list (payload : Json) : List SupplierModel :=
  match payload with
  | .obj fields =>
      match Json.lookupField fields "data" with
      | some (.arr items) =>
          items.filterMap (fun item =>
            match item with
            | .obj f =>
                match Json.lookupField f "id" with
                | some v => if v.truthy then some ⟨pyStr v⟩ else none
                | none => none
            | _ => none)
      | _ => []
  | _ => []

end Arcamage

namespace Arcamage

/-! ## Theorems -/

/-- C1 (code_bug): the buffered chat path is claimed never to raise — every
upstream failure should come back as an explicit (translated status,
normalized body) pair.  The code has no `try/except` in `_request_chat`:
a transport timeout escapes as a raw `httpx.TimeoutException`, and a 400
response whose JSON body has a non-dict `"error"` field makes
`parsed.get("error", {}).get(...)` raise `AttributeError`.  Neither
exception class has a registered handler (`main.py` registers one for
`ArcamageException` only), so the caller sees a raised exception, not a
response pair. -/
theorem c1_buffered_chat_raises :
    request_chat ⟨"https://api.example.com", "k", "m", [], false, none, none, none⟩
        "https://api.example.com" .connTimeout = .error .timeoutExc ∧
    request_chat ⟨"https://api.example.com", "k", "m", [], false, none, none, none⟩
        "https://api.example.com"
        (.response 400 ⟨"\x7b\"error\": \"x\"\x7d", .ok (.obj [("error", .str "x")])⟩) =
      .error .attributeError ∧
    proxy_chat ⟨"https://api.example.com", "k", "m", [], false, none, none, none⟩
        .connTimeout .connTimeout = (.buffered (.error .timeoutExc), 1) := by
  refine ⟨rfl, rfl, ?_⟩
  rfl

/-- C6 (code_bug): a streaming chat call with upstream status ≥ 400 is
claimed to emit exactly one SSE error event and nothing else.  On a 400
response whose JSON body is `\x7b"error": "bad"\x7d`, the generator raises
`AttributeError` (`.get` on the non-dict `"error"` value) before its first
yield: the caller receives zero SSE events and the stream breaks. -/
theorem c6_stream_error_breaks :
    stream_chat ⟨"https://api.example.com", "k", "m", [], true, none, none, none⟩
        "https://api.example.com"
        (.response ⟨400, .ok ⟨"\x7b\"error\": \"bad\"\x7d", .ok (.obj [("error", .str "bad")])⟩,
          [], .eof⟩) =
      ([], some .attributeError) := by
  rfl

/-- C2 (counterexample): the claim states that streaming mode maps upstream
status 400 to `UPSTREAM_ERROR`, unlike buffered mode.  In the code both
modes share `_map_error_code`, so the streaming path emits
`VALIDATION_ERROR` for a 400 response. -/
theorem c2_streaming_400_counterexample :
    stream_chat ⟨"https://api.example.com", "k", "m", [], true, none, none, none⟩
        "https://api.example.com" (.response ⟨400, .ok ⟨"", .error "e"⟩, [], .eof⟩) =
      ([format_error_event "VALIDATION_ERROR" (.str "Upstream error (400)")], none) ∧
    map_error_code 400 = "VALIDATION_ERROR" ∧
    "VALIDATION_ERROR" ≠ "UPSTREAM_ERROR" := by
  refine ⟨rfl, rfl, ?_⟩
  decide

/-- C2 (amended): the translation applied on the streaming chat path is the
same `_map_error_code` as the buffered path: for every status ≥ 400 the
emitted SSE error event carries 401→UNAUTHORIZED, 429→RATE_LIMITED,
400→VALIDATION_ERROR, and UPSTREAM_ERROR for every other status — no
buffered/streaming asymmetry exists. -/
theorem c2_streaming_translation (p : SupplierChatRequest) (base : String)
    (status : Nat) (body : UpstreamBody) (msg : Json)
    (h : 400 ≤ status) (hmsg : chat_error_message status body = .ok msg) :
    stream_chat p base (.response ⟨status, .ok body, [], .eof⟩) =
      ([format_error_event
          (if status = 401 then "UNAUTHORIZED"
           else if status = 429 then "RATE_LIMITED"
           else if status = 400 then "VALIDATION_ERROR"
           else "UPSTREAM_ERROR")
          msg], none) := by
  simp only [stream_chat, ge_iff_le, h, if_true, hmsg, map_error_code]

/-- Witness for `c2_streaming_translation` at status 400 and an empty error
body. -/
theorem c2_streaming_translation_witness :
    (400 ≤ 400 ∧
      chat_error_message 400 ⟨"", .error "e"⟩ = .ok (.str "Upstream error (400)")) ∧
    stream_chat ⟨"https://api.example.com", "k", "m", [], true, none, none, none⟩
        "https://api.example.com" (.response ⟨400, .ok ⟨"", .error "e"⟩, [], .eof⟩) =
      ([format_error_event
          (if 400 = 401 then "UNAUTHORIZED"
           else if 400 = 429 then "RATE_LIMITED"
           else if 400 = 400 then "VALIDATION_ERROR"
           else "UPSTREAM_ERROR")
          (.str "Upstream error (400)")], none) :=
  ⟨⟨le_refl 400, rfl⟩,
    c2_streaming_translation _ _ 400 ⟨"", .error "e"⟩ (.str "Upstream error (400)")
      (le_refl 400) rfl⟩

/-- C3 (counterexample): for `listModels` the claim says any status ≥ 400
other than 401/429 fails with kind `UPSTREAM_ERROR`.  The code raises
`NetworkError` — the same class used for transport failures, whose kind is
`NETWORK_ERROR`; indeed the repository's `ErrorCode` enum has no
`UPSTREAM_ERROR` member at all.  Status 500 exhibits it. -/
theorem c3_status_kind_counterexample :
    (fetch_models "https://api.example.com" "k" (.response 500 ⟨"", .error ""⟩)).1 =
      .error (.arca (.networkError "Upstream error: 500"
        (.obj [("status_code", .num 500)]))) ∧
    ArcaError.kindStr (.networkError "Upstream error: 500"
        (.obj [("status_code", .num 500)])) = "NETWORK_ERROR" ∧
    "NETWORK_ERROR" ≠ "UPSTREAM_ERROR" ∧
    ArcaError.errorCode (.networkError "Upstream error: 500"
        (.obj [("status_code", .num 500)])) = .NETWORK_ERROR := by
  refine ⟨rfl, rfl, ?_, rfl⟩
  decide

/-- C3 (amended): for every upstream response to `listModels` with status
≥ 400: 401 fails with `UNAUTHORIZED`, 429 with `RATE_LIMITED`, and every
other such status with a `NetworkError` (kind `NETWORK_ERROR`, not
`UPSTREAM_ERROR`) carrying the numeric status in its detail. -/
theorem c3_status_mapping (status : Nat) (body : UpstreamBody) :
    (status = 401 →
      fetch_models "https://api.example.com" "k" (.response status body) =
        (.error (.arca (.unauthorizedError "Unauthorized")), 1)) ∧
    (status = 429 →
      fetch_models "https://api.example.com" "k" (.response status body) =
        (.error (.arca (.rateLimitedError "Rate limit exceeded")), 1)) ∧
    (400 ≤ status → status ≠ 401 → status ≠ 429 →
      fetch_models "https://api.example.com" "k" (.response status body) =
        (.error (.arca (.networkError ("Upstream error: " ++ toString status)
          (.obj [("status_code", .num status)]))), 1)) := by
  have hk1 : ¬ (("k" : String) = "") := by decide
  have hk2 : ¬ (pyStrip "k" = "") := by decide
  have hnorm : normalize_base_url "https://api.example.com" =
      .ok "https://api.example.com" := by rfl
  refine ⟨fun h1 => ?_, fun h2 => ?_, fun hge h1 h2 => ?_⟩
  · subst h1
    simp [fetch_models, hk1, hk2, hnorm]
  · subst h2
    simp [fetch_models, hk1, hk2, hnorm]
  · simp [fetch_models, hk1, hk2, hnorm, h1, h2, ge_iff_le, hge]

/-- Witness for `c3_status_mapping` at status 503. -/
theorem c3_status_mapping_witness :
    (400 ≤ 503 ∧ 503 ≠ 401 ∧ 503 ≠ 429) ∧
    fetch_models "https://api.example.com" "k" (.response 503 ⟨"", .error ""⟩) =
      (.error (.arca (.networkError ("Upstream error: " ++ toString 503)
        (.obj [("status_code", .num 503)]))), 1) :=
  ⟨⟨by decide, by decide, by decide⟩,
    (c3_status_mapping 503 ⟨"", .error ""⟩).2.2 (by decide) (by decide) (by decide)⟩

/-- C4 (confirmed): for every empty or whitespace-only credential, both the
chat entry point (`proxy_chat`, buffered and streaming alike) and
`fetch_models` fail with a `ValidationError` (kind `VALIDATION_ERROR`) and
perform zero upstream transport exchanges, whatever the upstream behaviour
would have been. -/
theorem c4_blank_credential (p : SupplierChatRequest)
    (su : StreamUpstream) (bu : BufferedUpstream)
    (base key : String) (up : BufferedUpstream)
    (hp : pyStrip p.api_key = "") (hk : pyStrip key = "") :
    proxy_chat p su bu =
      (.localError (.arca (.validationError "API Key 不能为空" .null)), 0) ∧
    fetch_models base key up =
      (.error (.arca (.validationError "API Key 不能为空" .null)), 0) := by
  constructor
  · simp only [proxy_chat, hp, or_true, if_true]
  · simp only [fetch_models, hk, or_true, if_true]

/-- Witness for `c4_blank_credential` with a whitespace credential. -/
theorem c4_blank_credential_witness :
    (pyStrip "  " = "" ∧ pyStrip "\t" = "") ∧
    proxy_chat ⟨"https://api.example.com", "  ", "m", [], true, none, none, none⟩
        .connTimeout .connTimeout =
      (.localError (.arca (.validationError "API Key 不能为空" .null)), 0) ∧
    fetch_models "https://api.example.com" "\t" .connTimeout =
      (.error (.arca (.validationError "API Key 不能为空" .null)), 0) :=
  ⟨⟨by decide, by decide⟩,
    c4_blank_credential ⟨"https://api.example.com", "  ", "m", [], true, none, none, none⟩
      .connTimeout .connTimeout "https://api.example.com" "\t" .connTimeout
      (by decide) (by decide)⟩

/-- Per-item agreement of the source's truthiness filter with the amended
claim's description of it. -/
theorem fetch_item_eq_amended (item : Json) :
    (match item with
     | .obj fields =>
         if (Json.dictGet fields "id" .null).truthy then
           some (⟨pyStr (Json.dictGet fields "id" .null)⟩ : SupplierModel)
         else none
     | _ => none) =
    (match item with
     | .obj f =>
         match Json.lookupField f "id" with
         | some v => if v.truthy then some (⟨pyStr v⟩ : SupplierModel) else none
         | none => none
     | _ => none) := by
  cases item with
  | obj fields =>
      cases h : Json.lookupField fields "id" with
      | none => simp [Json.dictGet, h, Json.truthy]
      | some v => simp [Json.dictGet, h]
  | null => rfl
  | bool b => rfl
  | num n => rfl
  | str s => rfl
  | arr xs => rfl

/-- The source's 2xx model-list construction agrees with the amended
claim's description on every parsed body. -/
theorem fetch_models_list_eq_amended (payload : Json) :
    fetch_models_list payload = c7_amended_list payload := by
  cases payload with
  | obj fields =>
      unfold fetch_models_list c7_amended_list
      cases hd : Json.lookupField fields "data" with
      | none => simp [Json.dictGet, hd]
      | some v =>
          cases v with
          | arr items =>
              simp only [Json.dictGet, hd, Option.getD_some]
              exact List.filterMap_congr (fun x _ => fetch_item_eq_amended x)
          | null => simp [Json.dictGet, hd]
          | bool b => simp [Json.dictGet, hd]
          | num n => simp [Json.dictGet, hd]
          | str s => simp [Json.dictGet, hd]
          | obj f => simp [Json.dictGet, hd]
  | null => rfl
  | bool b => rfl
  | num n => rfl
  | str s => rfl
  | arr xs => rfl

/-- C7 (counterexample): the claim keeps every `data` element that is an
object with a non-empty `id` field.  The code filters by Python
truthiness, so `\x7b"id": 0\x7d` — whose `id` field is present and not
empty — is dropped: the code returns `[]` where the claim requires one
entry. -/
theorem c7_truthy_id_counterexample :
    fetch_models_list (.obj [("data", .arr [.obj [("id", .num 0)]])]) = [] ∧
    c7_spec_list (.obj [("data", .arr [.obj [("id", .num 0)]])]) = [⟨"0"⟩] ∧
    fetch_models_list (.obj [("data", .arr [.obj [("id", .num 0)]])]) ≠
      c7_spec_list (.obj [("data", .arr [.obj [("id", .num 0)]])]) := by
  refine ⟨rfl, rfl, ?_⟩
  intro h
  rw [show fetch_models_list (.obj [("data", .arr [.obj [("id", .num 0)]])]) = [] from rfl,
      show c7_spec_list (.obj [("data", .arr [.obj [("id", .num 0)]])]) = [⟨"0"⟩] from rfl] at h
  exact absurd h (by decide)

/-- C7 (amended): on a 2xx `listModels` response, an unparseable body fails
with `VALIDATION_ERROR`; a parsed body yields exactly those `data` elements
that are objects whose `id` value is Python-truthy (so a non-empty string
id is kept, an absent, empty-string, `null`, `0` or `false` id is dropped),
each as one entry whose id is the Python `str()` of the value; a body whose
`data` is missing or not an array yields the empty list.  The claim's
sample body yields exactly one entry `gpt-a`. -/
theorem c7_model_list_extraction :
    (∀ raw errText,
      fetch_models "https://api.example.com" "k" (.response 200 ⟨raw, .error errText⟩) =
        (.error (.arca (.validationError "响应解析失败"
          (.obj [("error", .str errText)]))), 1)) ∧
    (∀ raw j,
      fetch_models "https://api.example.com" "k" (.response 200 ⟨raw, .ok j⟩) =
        (.ok (c7_amended_list j), 1)) ∧
    fetch_models "https://api.example.com" "k"
        (.response 200 ⟨"\x7b\"data\":[\x7b\"id\":\"gpt-a\"\x7d,\x7b\"no_id\":true\x7d,\x7b\"id\":\"\"\x7d]\x7d",
          .ok (.obj [("data", .arr [.obj [("id", .str "gpt-a")],
            .obj [("no_id", .bool true)], .obj [("id", .str "")]])])⟩) =
      (.ok [⟨"gpt-a"⟩], 1) := by
  have hk1 : ¬ (("k" : String) = "") := by decide
  have hk2 : ¬ (pyStrip "k" = "") := by decide
  have hnorm : normalize_base_url "https://api.example.com" =
      .ok "https://api.example.com" := by rfl
  refine ⟨fun raw errText => ?_, fun raw j => ?_, rfl⟩
  · simp [fetch_models, hk1, hk2, hnorm]
  · simp [fetch_models, hk1, hk2, hnorm, fetch_models_list_eq_amended]

/-- C8 (confirmed): the outgoing upstream bodies built by the streaming and
the buffered chat paths both contain the keys `model`, `messages` and
`stream` (with the mode's stream flag), and contain `temperature` /
`tools` / `tool_choice` exactly when the optional field is present on the
request, bound to that field's value — an absent optional field contributes
no key at all, never a null-valued key. -/
theorem c8_optional_fields (p : SupplierChatRequest) :
    (Json.lookupField (stream_chat_body p) "model" = some (.str p.model) ∧
     Json.lookupField (stream_chat_body p) "messages" = some (.arr p.messages) ∧
     Json.lookupField (stream_chat_body p) "stream" = some (.bool true) ∧
     Json.lookupField (stream_chat_body p) "temperature" = p.temperature ∧
     Json.lookupField (stream_chat_body p) "tools" = p.tools ∧
     Json.lookupField (stream_chat_body p) "tool_choice" = p.tool_choice) ∧
    (Json.lookupField (request_chat_body p) "model" = some (.str p.model) ∧
     Json.lookupField (request_chat_body p) "messages" = some (.arr p.messages) ∧
     Json.lookupField (request_chat_body p) "stream" = some (.bool false) ∧
     Json.lookupField (request_chat_body p) "temperature" = p.temperature ∧
     Json.lookupField (request_chat_body p) "tools" = p.tools ∧
     Json.lookupField (request_chat_body p) "tool_choice" = p.tool_choice) := by
  obtain ⟨b, k, m, msgs, st, t, tl, tc⟩ := p
  cases t <;> cases tl <;> cases tc <;>
    exact ⟨⟨rfl, rfl, rfl, rfl, rfl, rfl⟩, ⟨rfl, rfl, rfl, rfl, rfl, rfl⟩⟩

/-- Concatenation is unchanged by dropping empty chunks. -/
theorem flatten_filter_nonempty {α : Type} (l : List (List α)) :
    (l.filter (fun c => !c.isEmpty)).flatten = l.flatten := by
  induction l with
  | nil => rfl
  | cons c rest ih =>
      cases c with
      | nil => simpa [List.filter_cons] using ih
      | cons a as => simp [List.filter_cons, ih]

/-- C10 (confirmed): on the streaming success path (status < 400) the
generator yields exactly the non-empty upstream chunks, in order: every
yielded chunk is non-empty, and the concatenation of the yielded bytes
equals the concatenation of the bytes received from upstream. -/
theorem c10_success_relay (p : SupplierChatRequest) (base : String) (status : Nat)
    (read : ReadOutcome) (chunks : List Bytes) (h : status < 400) :
    (stream_chat p base (.response ⟨status, read, chunks, .eof⟩)).1 =
      chunks.filter (fun c => !c.isEmpty) ∧
    (∀ c ∈ (stream_chat p base (.response ⟨status, read, chunks, .eof⟩)).1, c ≠ []) ∧
    (stream_chat p base (.response ⟨status, read, chunks, .eof⟩)).1.flatten =
      chunks.flatten := by
  have hge : ¬ (status ≥ 400) := by omega
  have e : (stream_chat p base (.response ⟨status, read, chunks, .eof⟩)).1 =
      chunks.filter (fun c => !c.isEmpty) := by
    simp [stream_chat, hge]
  refine ⟨e, ?_, ?_⟩
  · rw [e]
    intro c hc
    have hmem := List.of_mem_filter hc
    simp only [Bool.not_eq_true'] at hmem
    intro hnil
    subst hnil
    simp [List.isEmpty] at hmem
  · rw [e]
    exact flatten_filter_nonempty chunks

/-- Witness for `c10_success_relay` on a 200 response with an empty chunk
amid two non-empty ones. -/
theorem c10_success_relay_witness :
    (200 < 400) ∧
    ((stream_chat ⟨"https://api.example.com", "k", "m", [], true, none, none, none⟩
        "https://api.example.com"
        (.response ⟨200, .ok ⟨"", .error ""⟩, [[104, 105], [], [33]], .eof⟩)).1 =
      ([[104, 105], [], [33]] : List Bytes).filter (fun c => !c.isEmpty) ∧
     (∀ c ∈ (stream_chat ⟨"https://api.example.com", "k", "m", [], true, none, none, none⟩
        "https://api.example.com"
        (.response ⟨200, .ok ⟨"", .error ""⟩, [[104, 105], [], [33]], .eof⟩)).1, c ≠ []) ∧
     (stream_chat ⟨"https://api.example.com", "k", "m", [], true, none, none, none⟩
        "https://api.example.com"
        (.response ⟨200, .ok ⟨"", .error ""⟩, [[104, 105], [], [33]], .eof⟩)).1.flatten =
      ([[104, 105], [], [33]] : List Bytes).flatten) :=
  ⟨by decide,
    c10_success_relay ⟨"https://api.example.com", "k", "m", [], true, none, none, none⟩
      "https://api.example.com" 200 (.ok ⟨"", .error ""⟩) [[104, 105], [], [33]]
      (by decide)⟩

/-- String concatenation is associative. -/
theorem string_append_assoc (a b c : String) : a ++ b ++ c = a ++ (b ++ c) :=
  String.ext (by simp [String.data_append, List.append_assoc])

/-- C9 (confirmed): `frame(kind, message)` is exactly the UTF-8 encoding of
the text `event: error`, a newline, `data: ` followed by the JSON object
whose `code` field is the kind and whose `message` field is the
JSON-escaped message, followed by two newlines (the blank line terminating
the single SSE event). -/
theorem c9_sse_error_frame (kind message : String) :
    format_error_event kind (.str message) =
      utf8 ("event: error\ndata: \x7b\"code\": \"" ++ jsonEscape kind ++
            "\", \"message\": \"" ++ jsonEscape message ++ "\"\x7d\n\n") := by
  unfold format_error_event
  congr 1
  simp only [pyJsonDumps, dumpsFields, jsonQuote]
  rw [show jsonEscape "code" = "code" from by decide,
      show jsonEscape "message" = "message" from by decide,
      show ("event: error\ndata: \x7b\"code\": \"" : String) =
        "event: error\ndata: " ++ "\x7b" ++ "\"" ++ "code" ++ "\"" ++ ": " ++ "\""
        from by decide,
      show ("\", \"message\": \"" : String) =
        "\"" ++ ", " ++ "\"" ++ "message" ++ "\"" ++ ": " ++ "\"" from by decide,
      show ("\"\x7d\n\n" : String) = "\"" ++ "\x7d" ++ "\n\n" from by decide]
  simp only [string_append_assoc]

/-- The head of `dropWhile p l` does not satisfy `p`. -/
theorem head_dropWhile_false {α : Type} (p : α → Bool) (l : List α) (x : α)
    (h : (l.dropWhile p).head? = some x) : p x = false := by
  induction l with
  | nil => simp [List.dropWhile] at h
  | cons a as ih =>
      rw [List.dropWhile_cons] at h
      by_cases hp : p a
      · rw [if_pos hp] at h
        exact ih h
      · rw [if_neg hp] at h
        simp only [List.head?_cons, Option.some.injEq] at h
        subst h
        exact Bool.of_not_eq_true hp

/-- `rstrip("/")` leaves no trailing slash. -/
theorem rstripSlashes_no_trailing (s : String) :
    (rstripSlashes s).data.getLast? ≠ some '/' := by
  show ((s.data.reverse.dropWhile _).reverse).getLast? ≠ some '/'
  rw [List.getLast?_reverse]
  intro h
  have hx := head_dropWhile_false _ _ '/' h
  simp at hx

/-- C5 (counterexample): the claim partitions all inputs into
`VALIDATION_ERROR` failures (blank, missing scheme/host, loopback host) and
successes.  The input `http://[` falls in neither class: `urlparse` raises
an uncaught `ValueError` on the mismatched IPv6 bracket, so
`_normalize_base_url` raises `ValueError`, not `ValidationError`, and does
not succeed. -/
theorem c5_bracket_counterexample :
    normalize_base_url "http://[" = .error (.py .valueErrorExn) ∧
    pyStrip "http://[" ≠ "" ∧
    pyUrlparse "http://[" = .error () ∧
    ¬ c5_validation_cond "http://[" := by
  refine ⟨rfl, by decide, rfl, ?_⟩
  intro hc
  rcases hc with h | ⟨parts, hp, _⟩
  · exact absurd h (by decide)
  · rw [show pyUrlparse "http://[" = .error () from rfl] at hp
    exact Except.noConfusion hp

/-- C5 (amended): `normalize(base_url)` fails with `VALIDATION_ERROR`
exactly when the input is blank, or it parses with a missing scheme or
authority, or its hostname is a loopback name; inputs whose authority has
mismatched square brackets instead make `urlparse` raise an uncaught
`ValueError` (neither a `VALIDATION_ERROR` failure nor a success); in every
other case normalization succeeds and returns the input with all trailing
`/` removed — so the result never ends in `/`, and
`normalize("http://x/") = normalize("http://x")`. -/
theorem c5_normalize_classification :
    (∀ s, (∃ m d, normalize_base_url s = .error (.arca (.validationError m d))) ↔
      c5_validation_cond s) ∧
    (∀ s, normalize_base_url s = .error (.py .valueErrorExn) ↔
      (¬ (s = "" ∨ pyStrip s = "") ∧ pyUrlparse s = .error ())) ∧
    (∀ s r, normalize_base_url s = .ok r →
      r = rstripSlashes s ∧ r.data.getLast? ≠ some '/') ∧
    normalize_base_url "http://x/" = normalize_base_url "http://x" := by
  have hblank : ∀ s : String, (s = "" ∨ pyStrip s = "") → pyStrip s = "" := by
    intro s h
    rcases h with h | h
    · subst h; rfl
    · exact h
  have hdec : ∀ s : String, ¬ (s = "" ∨ pyStrip s = "") → pyStrip s ≠ "" :=
    fun s h hh => h (Or.inr hh)
  refine ⟨fun s => ?_, fun s => ?_, fun s r hok => ?_, rfl⟩
  · by_cases h0 : s = "" ∨ pyStrip s = ""
    · simp only [normalize_base_url, if_pos h0]
      exact ⟨fun _ => Or.inl (hblank s h0), fun _ => ⟨_, _, rfl⟩⟩
    · simp only [normalize_base_url, if_neg h0]
      cases hp : pyUrlparse s with
      | error u =>
          dsimp only
          constructor
          · rintro ⟨m, d, h⟩
            exact Failure.noConfusion (Except.error.inj h)
          · rintro (h | ⟨parts, hparts, _⟩)
            · exact absurd h (hdec s h0)
            · rw [hp] at hparts
              exact Except.noConfusion hparts
      | ok parts =>
          dsimp only
          by_cases h1 : parts.scheme = "" ∨ parts.netloc = ""
          · rw [if_pos h1]
            refine ⟨fun _ => Or.inr ⟨parts, hp, ?_⟩, fun _ => ⟨_, _, rfl⟩⟩
            exact h1.elim (fun h => Or.inl h) (fun h => Or.inr (Or.inl h))
          · rw [if_neg h1]
            by_cases h2 : pyLower ((pyHostname parts.netloc).getD "") = "localhost" ∨
                pyLower ((pyHostname parts.netloc).getD "") = "127.0.0.1" ∨
                pyLower ((pyHostname parts.netloc).getD "") = "::1"
            · rw [if_pos h2]
              refine ⟨fun _ => Or.inr ⟨parts, hp, Or.inr (Or.inr ?_)⟩, fun _ => ⟨_, _, rfl⟩⟩
              cases hh : pyHostname parts.netloc with
              | none =>
                  rw [hh, Option.getD_none] at h2
                  exact absurd h2 (by decide)
              | some hst =>
                  rw [hh, Option.getD_some] at h2
                  exact ⟨hst, rfl, h2⟩
            · rw [if_neg h2]
              constructor
              · rintro ⟨m, d, h⟩
                exact Except.noConfusion h
              · rintro (h | ⟨parts2, hparts2, hcond⟩)
                · exact absurd h (hdec s h0)
                · rw [hp] at hparts2
                  obtain rfl := Except.ok.inj hparts2
                  rcases hcond with h | h | ⟨hst, hh, hc⟩
                  · exact absurd (Or.inl h) h1
                  · exact absurd (Or.inr h) h1
                  · rw [hh, Option.getD_some] at h2
                    exact absurd hc h2
  · by_cases h0 : s = "" ∨ pyStrip s = ""
    · simp only [normalize_base_url, if_pos h0]
      constructor
      · intro h
        exact Failure.noConfusion (Except.error.inj h)
      · rintro ⟨hn, _⟩
        exact absurd h0 hn
    · simp only [normalize_base_url, if_neg h0]
      cases hp : pyUrlparse s with
      | error u =>
          dsimp only
          exact ⟨fun _ => ⟨h0, rfl⟩, fun _ => rfl⟩
      | ok parts =>
          dsimp only
          constructor
          · intro h
            split at h
            · exact Failure.noConfusion (Except.error.inj h)
            · split at h
              · exact Failure.noConfusion (Except.error.inj h)
              · exact Except.noConfusion h
          · rintro ⟨_, hparse⟩
            exact Except.noConfusion hparse
  · simp only [normalize_base_url] at hok
    split at hok
    · exact Except.noConfusion hok
    · split at hok
      · exact Except.noConfusion hok
      · split at hok
        · exact Except.noConfusion hok
        · split at hok
          · exact Except.noConfusion hok
          · obtain rfl := Except.ok.inj hok
            exact ⟨rfl, rstripSlashes_no_trailing s⟩

/-- Witness for `c5_normalize_classification`: the success clause at
`http://x//`. -/
theorem c5_normalize_classification_witness :
    normalize_base_url "http://x//" = .ok "http://x" ∧
    (("http://x" : String) = rstripSlashes "http://x//" ∧
      ("http://x" : String).data.getLast? ≠ some '/') :=
  ⟨rfl, c5_normalize_classification.2.2.1 "http://x//" "http://x" rfl⟩

end Arcamage
